import Mathlib

/-!
Shallow embedding of `DomainTypedef`
(`core/src/main/python/wlsdeploy/tool/create/domain_typedef.py`), the
domain-type-definition processor of the WebLogic Deploy Tooling: version
resolution against the typedef `versions` table, deferred token-substitution
of template paths, discover-filter matching, and legacy `system-elements`
translation.  Python dictionaries are modelled as association lists with
`List.lookup`, exceptions as `Except` over an explicit error type, and the
mutable object state as an explicit `TypedefState` record that operations
thread through.
-/

namespace DomainTypedef

/-- Errors raised by the embedded code.  `claError` stands for the
command-line-argument exceptions built by
`exception_helper.create_cla_exception` (the spec's `ConfigError`);
`discoverError` and `createError` stand for
`create_discover_exception` / `create_create_exception`; `keyError` models a
Python `KeyError` from an unchecked dictionary access.  Contextual message
arguments (domain type, file name, offending key) are omitted: only the
message id and the exception flavor matter to the properties proved here. -/
inductive WDTError where
  | claError (msgId : String)
  | discoverError (msgId : String)
  | createError (msgId : String)
  | keyError (key : String)
  deriving Repr, DecidableEq

/-- Source constant `NOT_SUPPORTED` (domain_typedef.py line 26). -/
def NOT_SUPPORTED : String := "NOT_SUPPORTED"

/-- Source constant `CREATE_DOMAIN` (line 24). -/
def CREATE_DOMAIN : String := "createDomain"

/-- Source constant `DISCOVER_DOMAIN` (line 25). -/
def DISCOVER_DOMAIN : String := "discoverDomain"

/-- Model of the external `WebLogicHelper` version oracle.
`currentVersion` is the result of `get_actual_weblogic_version()`;
`higherChain` is the finite sequence of successive results of
`get_next_higher_order_version_number` starting from `currentVersion`
(first element is the next-higher version of `currentVersion`, each later
element the next-higher version of its predecessor), ending where the
helper returns `None`.  The oracle guarantees this chain is finite, which
is what makes the `while` loop in `__match_version_typedef` terminate. -/
structure VersionOracle where
  currentVersion : String
  higherChain : List String

/-- The `while new_version is not None` loop body of
`__match_version_typedef` (lines 451-458): walk the successive next-higher
versions, returning the `versions` table entry of the first one that is a
key of the table, or `none` if the chain is exhausted first. -/
def find_higher_version (versions_dict : List (String × String)) :
    List String → Option String
  | [] => none
  | new_version :: rest =>
    match versions_dict.lookup new_version with
    | some result => some result
    | none => find_higher_version versions_dict rest

/-- Embedding of `__match_version_typedef` (lines 427-472): fail on an
empty `versions` table (WLSDPLY-12307); take the exact entry when the
oracle's current version is a key; otherwise walk the next-higher chain and
take the first hit, failing with WLSDPLY-12309 when the chain ends with no
hit; finally fail with WLSDPLY-12313 when the selected entry is the
`NOT_SUPPORTED` sentinel. -/
def match_version_typedef (versions_dict : List (String × String))
    (oracle : VersionOracle) : Except WDTError String :=
  if versions_dict = [] then
    .error (.claError "WLSDPLY-12307")
  else
    let selected : Except WDTError String :=
      match versions_dict.lookup oracle.currentVersion with
      | some result => .ok result
      | none =>
        match find_higher_version versions_dict oracle.higherChain with
        | some result => .ok result
        | none => .error (.claError "WLSDPLY-12309")
    match selected with
    | .error e => .error e
    | .ok result =>
      if result = NOT_SUPPORTED then .error (.claError "WLSDPLY-12313")
      else .ok result

/-- The version-specific definition record selected from the typedef
document's `definitions` mapping.  Each field models the presence or
absence of the corresponding dictionary key (`none` = key absent).  The
optional `targeting` and `postCreateDomainScript` entries are not modelled:
no property proved here concerns them, and `__resolve_paths` never touches
them. -/
structure DefRecord where
  baseTemplate : Option String
  extensionTemplates : Option (List String)
  customExtensionTemplates : Option (List String)
  serverGroupsToTarget : Option (List String)
  dynamicClusterServerGroupsToTarget : Option (List String)
  rcuSchemas : Option (List String)
  deriving Repr, DecidableEq

/-- The typedef document built by the JSON parser: the top-level `versions`
and `definitions` mappings (each `none` when the key is absent from the
document).  The optional `topologyProfile` and filter sections are handled
separately and are not needed by the properties about
`__get_version_typedef`. -/
structure TypedefDoc where
  versions : Option (List (String × String))
  definitions : Option (List (String × DefRecord))

/-- The mutable per-instance state threaded through the embedded methods:
`self._domain_typedef` (the selected definition record),
`self._paths_resolved`, and `self._model_context`.  The model context is
modelled by its only used capability, the pure token-substitution function
`replace_token_string`. -/
structure TypedefState where
  domain_typedef : DefRecord
  paths_resolved : Bool
  model_context : Option (String → String)

/-- The instance state right after `__init__` selected `record` as the
version typedef (lines 95-97: `_paths_resolved = False`,
`_model_context = None`). -/
def initial_state (record : DefRecord) : TypedefState :=
  { domain_typedef := record, paths_resolved := false, model_context := none }

/-- Embedding of `__resolve_paths` (lines 344-394).  A no-op when
`_paths_resolved` is already set; otherwise fails with WLSDPLY-12302 when no
model context was supplied, fails with WLSDPLY-12303 when the record has no
`baseTemplate`, and otherwise substitutes tokens in `baseTemplate` and in
every element of `extensionTemplates` / `customExtensionTemplates`
(defaulting absent lists to empty), defaults the two server-group lists and
`rcuSchemas` to empty when absent, and sets `_paths_resolved`. -/
def resolve_paths (s : TypedefState) : Except WDTError TypedefState :=
  if s.paths_resolved then .ok s
  else
    match s.model_context with
    | none => .error (.claError "WLSDPLY-12302")
    | some ctx =>
      match s.domain_typedef.baseTemplate with
      | none => .error (.claError "WLSDPLY-12303")
      | some base_template =>
        .ok { domain_typedef :=
                { baseTemplate := some (ctx base_template)
                  extensionTemplates :=
                    some ((s.domain_typedef.extensionTemplates.getD []).map ctx)
                  customExtensionTemplates :=
                    some ((s.domain_typedef.customExtensionTemplates.getD []).map ctx)
                  serverGroupsToTarget :=
                    some (s.domain_typedef.serverGroupsToTarget.getD [])
                  dynamicClusterServerGroupsToTarget :=
                    some (s.domain_typedef.dynamicClusterServerGroupsToTarget.getD [])
                  rcuSchemas := some (s.domain_typedef.rcuSchemas.getD []) }
              paths_resolved := true
              model_context := s.model_context }

/-- Embedding of `set_model_context` (lines 123-131): only when no model
context has been stored yet, store the new one and run `__resolve_paths`
(which may fail); otherwise do nothing at all. -/
def set_model_context (s : TypedefState) (model_context : String → String) :
    Except WDTError TypedefState :=
  match s.model_context with
  | none => resolve_paths { s with model_context := some model_context }
  | some _ => .ok s

/-- Embedding of `get_base_template` (lines 173-180): resolve paths, then
read `self._domain_typedef['baseTemplate']` (an unchecked dictionary access,
hence `keyError` when absent — unreachable after a successful resolution). -/
def get_base_template (s : TypedefState) : Except WDTError (TypedefState × String) :=
  match resolve_paths s with
  | .error e => .error e
  | .ok s' =>
    match s'.domain_typedef.baseTemplate with
    | some result => .ok (s', result)
    | none => .error (.keyError "baseTemplate")

/-- Embedding of `get_extension_templates` (lines 190-197): resolve paths,
then return a copy of `self._domain_typedef['extensionTemplates']` (the
`list(...)` copy is the identity in this immutable model). -/
def get_extension_templates (s : TypedefState) :
    Except WDTError (TypedefState × List String) :=
  match resolve_paths s with
  | .error e => .error e
  | .ok s' =>
    match s'.domain_typedef.extensionTemplates with
    | some result => .ok (s', result)
    | none => .error (.keyError "extensionTemplates")

/-- Embedding of `get_custom_extension_templates` (lines 199-206). -/
def get_custom_extension_templates (s : TypedefState) :
    Except WDTError (TypedefState × List String) :=
  match resolve_paths s with
  | .error e => .error e
  | .ok s' =>
    match s'.domain_typedef.customExtensionTemplates with
    | some result => .ok (s', result)
    | none => .error (.keyError "customExtensionTemplates")

/-- Embedding of `get_server_groups_to_target` (lines 208-215). -/
def get_server_groups_to_target (s : TypedefState) :
    Except WDTError (TypedefState × List String) :=
  match resolve_paths s with
  | .error e => .error e
  | .ok s' =>
    match s'.domain_typedef.serverGroupsToTarget with
    | some result => .ok (s', result)
    | none => .error (.keyError "serverGroupsToTarget")

/-- Embedding of `get_dynamic_cluster_server_groups` (lines 217-225). -/
def get_dynamic_cluster_server_groups (s : TypedefState) :
    Except WDTError (TypedefState × List String) :=
  match resolve_paths s with
  | .error e => .error e
  | .ok s' =>
    match s'.domain_typedef.dynamicClusterServerGroupsToTarget with
    | some result => .ok (s', result)
    | none => .error (.keyError "dynamicClusterServerGroupsToTarget")

/-- Embedding of `get_rcu_schemas` (lines 227-234): it deliberately does
NOT resolve paths, and it reads `self._domain_typedef['rcuSchemas']` with
an unchecked dictionary access, so an absent `rcuSchemas` key raises a
Python `KeyError` rather than yielding a default. -/
def get_rcu_schemas (s : TypedefState) : Except WDTError (List String) :=
  match s.domain_typedef.rcuSchemas with
  | some result => .ok result
  | none => .error (.keyError "rcuSchemas")

/-- Embedding of `requires_rcu` (lines 236-243):
`'rcuSchemas' in self._domain_typedef and len(self._domain_typedef['rcuSchemas']) > 0`. -/
def requires_rcu (s : TypedefState) : Bool :=
  match s.domain_typedef.rcuSchemas with
  | some result => result.length > 0
  | none => false

/-- Model of Python `re.match("^(Oracle Restricted JRF)$", t) is not None`
for the source constant `RESTRICTED_JRF_TEMPLATE_REGEX` (line 44): the
anchored pattern matches exactly the literal string, or the literal
followed by a single trailing newline (`$` also matches just before a
final newline in Python). -/
def restricted_jrf_match (template : String) : Bool :=
  template = "Oracle Restricted JRF" || template = "Oracle Restricted JRF\n"

/-- The `for` loop of `is_restricted_jrf_domain_type` (lines 168-171),
transcribed with its early returns: both branches of the loop body return,
so only the first list element is ever examined; an empty list falls off
the loop and returns Python's implicit `None` (modelled as `none`). -/
def restricted_jrf_loop : List String → Option Bool
  | [] => none
  | template :: _ =>
    if restricted_jrf_match template then some true else some false

/-- Embedding of `is_restricted_jrf_domain_type` (lines 163-171): fetch the
extension templates (which triggers path resolution) and run the truncated
scan `restricted_jrf_loop` over them. -/
def is_restricted_jrf_domain_type (s : TypedefState) :
    Except WDTError (TypedefState × Option Bool) :=
  match get_extension_templates s with
  | .error e => .error e
  | .ok (s', templates) => .ok (s', restricted_jrf_loop templates)

/-- The pattern loop of `is_filtered` (lines 310-313), parameterized by the
Python regular-expression engine: `rmatch pat n` stands for
`re.match(pat, n) is not None` (prefix-anchored matching).  Returns at the
first matching pattern; falls through to the method's final `return False`
when no pattern matches. -/
def filter_loop (rmatch : String → String → Bool) (name : String) :
    List String → Bool
  | [] => false
  | discover_filter :: rest =>
    if rmatch discover_filter name then true else filter_loop rmatch name rest

/-- Embedding of `is_filtered` (lines 295-314) over the built
`self._discover_filters` table; `key` is `location.get_folder_path()` and
`name` the optional object name (`none` = argument omitted). -/
def is_filtered (rmatch : String → String → Bool)
    (discover_filters : List (String × List String))
    (key : String) (name : Option String) : Bool :=
  match discover_filters.lookup key with
  | some patterns =>
    match name with
    | none => true
    | some n => filter_loop rmatch n patterns
  | none => false

/-- The fixed legacy lookup table `__key_mapping_table` (lines 47-58). -/
def key_mapping_table : List (String × String) :=
  [("apps", "/Application"),
   ("coherence-clusters", "/CoherenceClusterSystemResource"),
   ("datasources", "/JDBCSystemResource"),
   ("file-stores", "/FileStore"),
   ("jms", "/JMSSystemResource"),
   ("jms-server", "/JMSServer"),
   ("shared-libraries", "/Library"),
   ("shutdown-classes", "/ShutdownClass"),
   ("startup-classes", "/StartupClass"),
   ("wldf", "/WLDFSystemResource")]

/-- Embedding of `_convert_system_elements_key_name` (lines 329-342): map a
legacy key through the fixed table, or raise WLSDPLY-12316 as a discover
exception when the program is `discoverDomain` and as a create exception
otherwise. -/
def convert_system_elements_key_name (program_name : String) (key : String) :
    Except WDTError String :=
  match key_mapping_table.lookup key with
  | some new_key => .ok new_key
  | none =>
    if program_name = DISCOVER_DOMAIN then .error (.discoverError "WLSDPLY-12316")
    else .error (.createError "WLSDPLY-12316")

/-- Embedding of `_translate_system_elements` (lines 316-327): rebuild the
dictionary entry by entry in iteration order, converting each key and
carrying each pattern list over unchanged; the first unknown key aborts the
whole translation with its exception. -/
def translate_system_elements (program_name : String) :
    List (String × List String) → Except WDTError (List (String × List String))
  | [] => .ok []
  | (key, value) :: rest =>
    match convert_system_elements_key_name program_name key with
    | .error e => .error e
    | .ok new_key =>
      match translate_system_elements program_name rest with
      | .error e => .error e
      | .ok tail => .ok ((new_key, value) :: tail)

/-- Embedding of `__get_version_typedef` (lines 396-425): require the
top-level `versions` (WLSDPLY-12304) and `definitions` (WLSDPLY-12305)
keys, match the version, then look the matched name up in `definitions`
(WLSDPLY-12306 when missing).  Returns the matched name paired with the
selected record. -/
def get_version_typedef (doc : TypedefDoc) (oracle : VersionOracle) :
    Except WDTError (String × DefRecord) :=
  match doc.versions with
  | none => .error (.claError "WLSDPLY-12304")
  | some versions_dict =>
    match doc.definitions with
    | none => .error (.claError "WLSDPLY-12305")
    | some definitions =>
      match match_version_typedef versions_dict oracle with
      | .error e => .error e
      | .ok name =>
        match definitions.lookup name with
        | some record => .ok (name, record)
        | none => .error (.claError "WLSDPLY-12306")

theorem find_higher_version_all_none {versions_dict : List (String × String)}
    {chain : List String} (h : ∀ u ∈ chain, versions_dict.lookup u = none) :
    find_higher_version versions_dict chain = none := by
  induction chain with
  | nil => rfl
  | cons v rest ih =>
    have hv := h v (by simp)
    simp only [find_higher_version, hv]
    exact ih (fun u hu => h u (by simp [hu]))

theorem find_higher_version_first {versions_dict : List (String × String)}
    {pre rest : List String} {v r : String}
    (hpre : ∀ u ∈ pre, versions_dict.lookup u = none)
    (hv : versions_dict.lookup v = some r) :
    find_higher_version versions_dict (pre ++ v :: rest) = some r := by
  induction pre with
  | nil => simp [find_higher_version, hv]
  | cons u pre' ih =>
    have hu := hpre u (by simp)
    simp only [List.cons_append, find_higher_version, hu]
    exact ih (fun w hw => hpre w (by simp [hw]))

theorem lookup_some_ne_nil {α β : Type} [BEq α] {l : List (α × β)} {k : α} {r : β}
    (h : l.lookup k = some r) : l ≠ [] := by
  intro hn
  subst hn
  simp [List.lookup] at h

/-- C1: version resolution in `__match_version_typedef`.  An empty
`versions` table fails with ConfigError WLSDPLY-12307; when the oracle's
current version is a key of the table, the resolver returns that entry
(exact match, no oracle probing needed); otherwise it walks the oracle's
next-higher-version chain and returns the table entry of the first chain
element that is a key of the table; and when the oracle chain is exhausted
(returns none) before any candidate is found, resolution fails with
ConfigError WLSDPLY-12309.  The two success conjuncts carry the hypothesis
that the selected entry is not the `NOT_SUPPORTED` sentinel; the sentinel
case is the subject of claim C2. -/
theorem match_version_typedef_spec (versions_dict : List (String × String))
    (oracle : VersionOracle) :
    (versions_dict = [] →
      match_version_typedef versions_dict oracle = .error (.claError "WLSDPLY-12307")) ∧
    (∀ r, versions_dict.lookup oracle.currentVersion = some r → r ≠ NOT_SUPPORTED →
      match_version_typedef versions_dict oracle = .ok r) ∧
    (∀ pre v rest r, versions_dict.lookup oracle.currentVersion = none →
      oracle.higherChain = pre ++ v :: rest →
      (∀ u ∈ pre, versions_dict.lookup u = none) →
      versions_dict.lookup v = some r → r ≠ NOT_SUPPORTED →
      match_version_typedef versions_dict oracle = .ok r) ∧
    (versions_dict ≠ [] →
      versions_dict.lookup oracle.currentVersion = none →
      (∀ u ∈ oracle.higherChain, versions_dict.lookup u = none) →
      match_version_typedef versions_dict oracle = .error (.claError "WLSDPLY-12309")) := by
  refine ⟨?_, ?_, ?_, ?_⟩
  · intro h
    subst h
    rfl
  · intro r hcur hr
    have hne := lookup_some_ne_nil hcur
    simp [match_version_typedef, hne, hcur, hr]
  · intro pre v rest r hcur hchain hpre hv hr
    have hne := lookup_some_ne_nil hv
    have hfind := @find_higher_version_first versions_dict pre rest v r hpre hv
    simp [match_version_typedef, hne, hcur, hchain, hfind, hr]
  · intro hne hcur hall
    have hfind := @find_higher_version_all_none versions_dict oracle.higherChain hall
    simp [match_version_typedef, hne, hcur, hfind]

theorem match_version_typedef_spec_witness :
    match_version_typedef [] ⟨"12.2.1.3", []⟩ = .error (.claError "WLSDPLY-12307") ∧
    match_version_typedef [("12.2.1.3", "base")] ⟨"12.2.1.3", []⟩ = .ok "base" ∧
    match_version_typedef [("12.2.1.3", "base")]
      ⟨"12.2.1.4", ["12.2.1.5", "12.2.1.3"]⟩ = .ok "base" ∧
    match_version_typedef [("12.2.1.3", "base")] ⟨"12.2.1.4", ["12.2.1.5"]⟩ =
      .error (.claError "WLSDPLY-12309") :=
  ⟨(match_version_typedef_spec [] ⟨"12.2.1.3", []⟩).1 rfl,
   (match_version_typedef_spec [("12.2.1.3", "base")] ⟨"12.2.1.3", []⟩).2.1
     "base" (by decide) (by decide),
   (match_version_typedef_spec [("12.2.1.3", "base")]
       ⟨"12.2.1.4", ["12.2.1.5", "12.2.1.3"]⟩).2.2.1
     ["12.2.1.5"] "12.2.1.3" [] "base" (by decide) rfl (by decide) (by decide)
     (by decide),
   (match_version_typedef_spec [("12.2.1.3", "base")]
       ⟨"12.2.1.4", ["12.2.1.5"]⟩).2.2.2 (by decide) (by decide) (by decide)⟩

/-- C2: when the entry selected by `__match_version_typedef` — whether by
exact match on the oracle's current version or as the first hit on the
next-higher-version chain — equals the `NOT_SUPPORTED` sentinel, resolution
fails with ConfigError WLSDPLY-12313 even though a matching key was
found. -/
theorem match_version_typedef_not_supported (versions_dict : List (String × String))
    (oracle : VersionOracle) :
    (versions_dict.lookup oracle.currentVersion = some NOT_SUPPORTED →
      match_version_typedef versions_dict oracle = .error (.claError "WLSDPLY-12313")) ∧
    (∀ pre v rest, versions_dict.lookup oracle.currentVersion = none →
      oracle.higherChain = pre ++ v :: rest →
      (∀ u ∈ pre, versions_dict.lookup u = none) →
      versions_dict.lookup v = some NOT_SUPPORTED →
      match_version_typedef versions_dict oracle = .error (.claError "WLSDPLY-12313")) := by
  constructor
  · intro hcur
    have hne := lookup_some_ne_nil hcur
    simp [match_version_typedef, hne, hcur]
  · intro pre v rest hcur hchain hpre hv
    have hne := lookup_some_ne_nil hv
    have hfind := @find_higher_version_first versions_dict pre rest v NOT_SUPPORTED hpre hv
    simp [match_version_typedef, hne, hcur, hchain, hfind]

theorem match_version_typedef_not_supported_witness :
    match_version_typedef [("10.3.6", "NOT_SUPPORTED")] ⟨"10.3.6", []⟩ =
      .error (.claError "WLSDPLY-12313") ∧
    match_version_typedef [("10.3.6", "NOT_SUPPORTED")] ⟨"10.3.5", ["10.3.6"]⟩ =
      .error (.claError "WLSDPLY-12313") :=
  ⟨(match_version_typedef_not_supported [("10.3.6", "NOT_SUPPORTED")]
      ⟨"10.3.6", []⟩).1 (by decide),
   (match_version_typedef_not_supported [("10.3.6", "NOT_SUPPORTED")]
      ⟨"10.3.5", ["10.3.6"]⟩).2 [] "10.3.6" [] (by decide) rfl (by decide)
     (by decide)⟩

theorem resolve_paths_fields (s s' : TypedefState) (ctx : String → String)
    (hflag : s.paths_resolved = false) (hctx : s.model_context = some ctx)
    (h : resolve_paths s = .ok s') :
    s'.paths_resolved = true ∧
    s'.model_context = s.model_context ∧
    s'.domain_typedef.baseTemplate = s.domain_typedef.baseTemplate.map ctx ∧
    s'.domain_typedef.extensionTemplates =
      some ((s.domain_typedef.extensionTemplates.getD []).map ctx) ∧
    s'.domain_typedef.customExtensionTemplates =
      some ((s.domain_typedef.customExtensionTemplates.getD []).map ctx) ∧
    s'.domain_typedef.serverGroupsToTarget =
      some (s.domain_typedef.serverGroupsToTarget.getD []) ∧
    s'.domain_typedef.dynamicClusterServerGroupsToTarget =
      some (s.domain_typedef.dynamicClusterServerGroupsToTarget.getD []) ∧
    s'.domain_typedef.rcuSchemas = some (s.domain_typedef.rcuSchemas.getD []) := by
  cases hbt : s.domain_typedef.baseTemplate with
  | none => simp [resolve_paths, hflag, hctx, hbt] at h
  | some base_template =>
    simp only [resolve_paths, hflag, hctx, hbt, Bool.false_eq_true, if_false,
      Except.ok.injEq] at h
    subst h
    refine ⟨rfl, hctx.symm ▸ rfl, ?_, rfl, rfl, rfl, rfl, rfl⟩
    simp [hbt]

theorem resolved_flag_noop (s' : TypedefState) (h : s'.paths_resolved = true) :
    resolve_paths s' = .ok s' := by
  simp [resolve_paths, h]

/-- C3: `__resolve_paths` is idempotent.  When a state with an installed
model context and unresolved paths resolves successfully, every
path-bearing field of the resulting record has had token substitution
applied exactly once (`baseTemplate` and each element of the two template
lists mapped once through the context, the identifier lists defaulted but
not substituted), and running resolution again on the result — as every
path-returning getter does — returns the state unchanged. -/
theorem resolve_paths_idempotent (s s' : TypedefState) (ctx : String → String)
    (hflag : s.paths_resolved = false) (hctx : s.model_context = some ctx)
    (h : resolve_paths s = .ok s') :
    resolve_paths s' = .ok s' ∧
    s'.domain_typedef.baseTemplate = s.domain_typedef.baseTemplate.map ctx ∧
    s'.domain_typedef.extensionTemplates =
      some ((s.domain_typedef.extensionTemplates.getD []).map ctx) ∧
    s'.domain_typedef.customExtensionTemplates =
      some ((s.domain_typedef.customExtensionTemplates.getD []).map ctx) ∧
    s'.domain_typedef.serverGroupsToTarget =
      some (s.domain_typedef.serverGroupsToTarget.getD []) ∧
    s'.domain_typedef.dynamicClusterServerGroupsToTarget =
      some (s.domain_typedef.dynamicClusterServerGroupsToTarget.getD []) ∧
    s'.domain_typedef.rcuSchemas = some (s.domain_typedef.rcuSchemas.getD []) := by
  have hfields := resolve_paths_fields s s' ctx hflag hctx h
  exact ⟨resolved_flag_noop s' hfields.1, hfields.2.2.1, hfields.2.2.2.1,
    hfields.2.2.2.2.1, hfields.2.2.2.2.2.1, hfields.2.2.2.2.2.2.1,
    hfields.2.2.2.2.2.2.2⟩

theorem resolve_paths_idempotent_witness :
    resolve_paths
      { domain_typedef :=
          { baseTemplate := some "t.jar", extensionTemplates := some ["e1"],
            customExtensionTemplates := some [], serverGroupsToTarget := some [],
            dynamicClusterServerGroupsToTarget := some [], rcuSchemas := some [] },
        paths_resolved := true, model_context := some (fun x => x) } =
    .ok { domain_typedef :=
            { baseTemplate := some "t.jar", extensionTemplates := some ["e1"],
              customExtensionTemplates := some [], serverGroupsToTarget := some [],
              dynamicClusterServerGroupsToTarget := some [], rcuSchemas := some [] },
          paths_resolved := true, model_context := some (fun x => x) } :=
  (resolve_paths_idempotent
    { domain_typedef :=
        { baseTemplate := some "t.jar", extensionTemplates := some ["e1"],
          customExtensionTemplates := none, serverGroupsToTarget := none,
          dynamicClusterServerGroupsToTarget := none, rcuSchemas := none },
      paths_resolved := false, model_context := some (fun x => x) }
    { domain_typedef :=
        { baseTemplate := some "t.jar", extensionTemplates := some ["e1"],
          customExtensionTemplates := some [], serverGroupsToTarget := some [],
          dynamicClusterServerGroupsToTarget := some [], rcuSchemas := some [] },
      paths_resolved := true, model_context := some (fun x => x) }
    (fun x => x) rfl rfl rfl).1

/-- C4 counterexample: the claim that `get_rcu_schemas` returns the empty
list when `rcuSchemas` is absent, independent of path resolution, is false.
On a freshly constructed (unresolved) state whose record has no
`rcuSchemas` key, `get_rcu_schemas` performs the unchecked dictionary
access `self._domain_typedef['rcuSchemas']` and raises a `KeyError`
instead of returning the empty list. -/
theorem get_rcu_schemas_absent_counterexample :
    get_rcu_schemas (initial_state
      { baseTemplate := some "t.jar", extensionTemplates := none,
        customExtensionTemplates := none, serverGroupsToTarget := none,
        dynamicClusterServerGroupsToTarget := none, rcuSchemas := none }) ≠
      .ok [] ∧
    get_rcu_schemas (initial_state
      { baseTemplate := some "t.jar", extensionTemplates := none,
        customExtensionTemplates := none, serverGroupsToTarget := none,
        dynamicClusterServerGroupsToTarget := none, rcuSchemas := none }) =
      .error (.keyError "rcuSchemas") := by
  constructor
  · intro h
    simp [get_rcu_schemas, initial_state] at h
  · rfl

/-- C4 (amended): `requires_rcu` returns true iff the `rcuSchemas` list is
present and non-empty, independent of whether paths have been resolved;
`get_rcu_schemas` returns a copy of the list whenever the key is present
(before or after resolution), and after a successful path resolution an
absent list has been defaulted to empty so the getter returns the empty
list and `requires_rcu` is unchanged — but before resolution an absent
`rcuSchemas` key makes `get_rcu_schemas` raise a `KeyError` rather than
return the empty list. -/
theorem rcu_schemas_accessors (s : TypedefState) :
    (requires_rcu s = true ↔
      ∃ l, s.domain_typedef.rcuSchemas = some l ∧ l ≠ []) ∧
    (∀ l, s.domain_typedef.rcuSchemas = some l → get_rcu_schemas s = .ok l) ∧
    (s.domain_typedef.rcuSchemas = none →
      get_rcu_schemas s = .error (.keyError "rcuSchemas")) ∧
    (∀ s' ctx, s.paths_resolved = false → s.model_context = some ctx →
      resolve_paths s = .ok s' →
      get_rcu_schemas s' = .ok (s.domain_typedef.rcuSchemas.getD []) ∧
      requires_rcu s' = requires_rcu s) := by
  refine ⟨?_, ?_, ?_, ?_⟩
  · cases hr : s.domain_typedef.rcuSchemas with
    | none => simp [requires_rcu, hr]
    | some l =>
      simp [requires_rcu, hr, List.length_pos_iff_ne_nil]
  · intro l hl
    simp [get_rcu_schemas, hl]
  · intro hl
    simp [get_rcu_schemas, hl]
  · intro s' ctx hflag hctx h
    have hfields := resolve_paths_fields s s' ctx hflag hctx h
    have hrcu := hfields.2.2.2.2.2.2.2
    constructor
    · simp [get_rcu_schemas, hrcu]
    · cases hr : s.domain_typedef.rcuSchemas with
      | none => simp [requires_rcu, hrcu, hr]
      | some l => simp [requires_rcu, hrcu, hr]

theorem rcu_schemas_accessors_witness :
    get_rcu_schemas (initial_state
      { baseTemplate := some "t.jar", extensionTemplates := none,
        customExtensionTemplates := none, serverGroupsToTarget := none,
        dynamicClusterServerGroupsToTarget := none, rcuSchemas := some ["STB"] }) =
      .ok ["STB"] ∧
    get_rcu_schemas
      { domain_typedef :=
          { baseTemplate := some "t.jar", extensionTemplates := none,
            customExtensionTemplates := none, serverGroupsToTarget := none,
            dynamicClusterServerGroupsToTarget := none, rcuSchemas := none },
        paths_resolved := false, model_context := some (fun x => x) } =
      .error (.keyError "rcuSchemas") ∧
    get_rcu_schemas
      { domain_typedef :=
          { baseTemplate := some "t.jar", extensionTemplates := some [],
            customExtensionTemplates := some [], serverGroupsToTarget := some [],
            dynamicClusterServerGroupsToTarget := some [], rcuSchemas := some [] },
        paths_resolved := true, model_context := some (fun x => x) } = .ok [] :=
  ⟨(rcu_schemas_accessors (initial_state
      { baseTemplate := some "t.jar", extensionTemplates := none,
        customExtensionTemplates := none, serverGroupsToTarget := none,
        dynamicClusterServerGroupsToTarget := none,
        rcuSchemas := some ["STB"] })).2.1 ["STB"] rfl,
   (rcu_schemas_accessors
      { domain_typedef :=
          { baseTemplate := some "t.jar", extensionTemplates := none,
            customExtensionTemplates := none, serverGroupsToTarget := none,
            dynamicClusterServerGroupsToTarget := none, rcuSchemas := none },
        paths_resolved := false, model_context := some (fun x => x) }).2.2.1 rfl,
   ((rcu_schemas_accessors
      { domain_typedef :=
          { baseTemplate := some "t.jar", extensionTemplates := none,
            customExtensionTemplates := none, serverGroupsToTarget := none,
            dynamicClusterServerGroupsToTarget := none, rcuSchemas := none },
        paths_resolved := false, model_context := some (fun x => x) }).2.2.2
      { domain_typedef :=
          { baseTemplate := some "t.jar", extensionTemplates := some [],
            customExtensionTemplates := some [], serverGroupsToTarget := some [],
            dynamicClusterServerGroupsToTarget := some [], rcuSchemas := some [] },
        paths_resolved := true, model_context := some (fun x => x) }
      (fun x => x) rfl rfl rfl).1⟩

/-- C5: `is_restricted_jrf_domain_type` examines only the first extension
template.  The truncated loop yields `some (restricted_jrf_match t)` for
any list with first element `t`, entirely independent of the elements after
the first, and yields `none` (Python's implicit `None`, no match reported)
for the empty list; the method itself applies exactly this scan to the
extension templates obtained through path resolution. -/
theorem is_restricted_jrf_first_template_only (s s' : TypedefState)
    (templates : List String) :
    restricted_jrf_loop [] = none ∧
    (∀ t rest, restricted_jrf_loop (t :: rest) = some (restricted_jrf_match t)) ∧
    (get_extension_templates s = .ok (s', templates) →
      is_restricted_jrf_domain_type s = .ok (s', restricted_jrf_loop templates)) := by
  refine ⟨rfl, ?_, ?_⟩
  · intro t rest
    by_cases ht : restricted_jrf_match t = true
    · simp [restricted_jrf_loop, ht]
    · simp [restricted_jrf_loop, ht, Bool.not_eq_true _ ▸ ht]
  · intro h
    simp [is_restricted_jrf_domain_type, h]

theorem is_restricted_jrf_first_template_only_witness :
    is_restricted_jrf_domain_type
      { domain_typedef :=
          { baseTemplate := some "t.jar",
            extensionTemplates := some ["Oracle Restricted JRF", "x.jar"],
            customExtensionTemplates := some [], serverGroupsToTarget := some [],
            dynamicClusterServerGroupsToTarget := some [], rcuSchemas := some [] },
        paths_resolved := true, model_context := some (fun x => x) } =
      .ok ({ domain_typedef :=
              { baseTemplate := some "t.jar",
                extensionTemplates := some ["Oracle Restricted JRF", "x.jar"],
                customExtensionTemplates := some [], serverGroupsToTarget := some [],
                dynamicClusterServerGroupsToTarget := some [], rcuSchemas := some [] },
             paths_resolved := true, model_context := some (fun x => x) },
           restricted_jrf_loop ["Oracle Restricted JRF", "x.jar"]) :=
  (is_restricted_jrf_first_template_only
    { domain_typedef :=
        { baseTemplate := some "t.jar",
          extensionTemplates := some ["Oracle Restricted JRF", "x.jar"],
          customExtensionTemplates := some [], serverGroupsToTarget := some [],
          dynamicClusterServerGroupsToTarget := some [], rcuSchemas := some [] },
      paths_resolved := true, model_context := some (fun x => x) }
    { domain_typedef :=
        { baseTemplate := some "t.jar",
          extensionTemplates := some ["Oracle Restricted JRF", "x.jar"],
          customExtensionTemplates := some [], serverGroupsToTarget := some [],
          dynamicClusterServerGroupsToTarget := some [], rcuSchemas := some [] },
      paths_resolved := true, model_context := some (fun x => x) }
    ["Oracle Restricted JRF", "x.jar"]).2.2 rfl

theorem filter_loop_iff (rmatch : String → String → Bool) (name : String)
    (patterns : List String) :
    filter_loop rmatch name patterns = true ↔
      ∃ p ∈ patterns, rmatch p name = true := by
  induction patterns with
  | nil => simp [filter_loop]
  | cons p rest ih =>
    simp only [filter_loop, List.mem_cons]
    by_cases hp : rmatch p name = true
    · rw [if_pos hp]
      exact iff_of_true rfl ⟨p, Or.inl rfl, hp⟩
    · rw [if_neg hp, ih]
      constructor
      · rintro ⟨q, hq, hqm⟩
        exact ⟨q, Or.inr hq, hqm⟩
      · rintro ⟨q, hq | hq, hqm⟩
        · exact absurd (hq ▸ hqm) hp
        · exact ⟨q, hq, hqm⟩

/-- C6: `is_filtered` over a filter table and the Python regex engine
(modelled as the abstract prefix-anchored matcher `rmatch`, standing for
`re.match(pattern, name) is not None`).  A folder path that is not a key of
the table is never filtered; a key with the name argument omitted filters
unconditionally, regardless of the key's pattern list; and with a name
given, the result is true exactly when some pattern of that key's list
matches the name, the list being scanned in order with the first match
short-circuiting (`filter_loop`). -/
theorem is_filtered_spec (rmatch : String → String → Bool)
    (discover_filters : List (String × List String)) (key : String) :
    (∀ name, discover_filters.lookup key = none →
      is_filtered rmatch discover_filters key name = false) ∧
    (∀ patterns, discover_filters.lookup key = some patterns →
      is_filtered rmatch discover_filters key none = true) ∧
    (∀ patterns n, discover_filters.lookup key = some patterns →
      (is_filtered rmatch discover_filters key (some n) = true ↔
        ∃ p ∈ patterns, rmatch p n = true)) := by
  refine ⟨?_, ?_, ?_⟩
  · intro name h
    simp [is_filtered, h]
  · intro patterns h
    simp [is_filtered, h]
  · intro patterns n h
    simp only [is_filtered, h]
    exact filter_loop_iff rmatch n patterns

theorem is_filtered_spec_witness :
    is_filtered (fun p n => n.startsWith p)
      [("/JDBCSystemResource", ["MyDS"])] "/Application" (some "x") = false ∧
    is_filtered (fun p n => n.startsWith p)
      [("/JDBCSystemResource", ["MyDS"])] "/JDBCSystemResource" none = true ∧
    (is_filtered (fun p n => n.startsWith p)
      [("/JDBCSystemResource", ["MyDS"])] "/JDBCSystemResource" (some "MyDS1") = true ↔
      ∃ p ∈ ["MyDS"], (fun p n => n.startsWith p) p "MyDS1" = true) :=
  ⟨(is_filtered_spec (fun p n => n.startsWith p)
      [("/JDBCSystemResource", ["MyDS"])] "/Application").1 (some "x") (by decide),
   (is_filtered_spec (fun p n => n.startsWith p)
      [("/JDBCSystemResource", ["MyDS"])] "/JDBCSystemResource").2.1
     ["MyDS"] (by decide),
   (is_filtered_spec (fun p n => n.startsWith p)
      [("/JDBCSystemResource", ["MyDS"])] "/JDBCSystemResource").2.2
     ["MyDS"] "MyDS1" (by decide)⟩

/-- C7: on an instance on which no model context has ever been supplied
(`_model_context` is `None`, hence `_paths_resolved` is still false), every
path-returning getter — base template, extension templates, custom
extension templates, server groups, dynamic-cluster server groups — fails
with ConfigError WLSDPLY-12302 rather than returning a default. -/
theorem unset_context_getters (s : TypedefState)
    (hctx : s.model_context = none) (hflag : s.paths_resolved = false) :
    get_base_template s = .error (.claError "WLSDPLY-12302") ∧
    get_extension_templates s = .error (.claError "WLSDPLY-12302") ∧
    get_custom_extension_templates s = .error (.claError "WLSDPLY-12302") ∧
    get_server_groups_to_target s = .error (.claError "WLSDPLY-12302") ∧
    get_dynamic_cluster_server_groups s = .error (.claError "WLSDPLY-12302") := by
  have h : resolve_paths s = .error (.claError "WLSDPLY-12302") := by
    simp [resolve_paths, hflag, hctx]
  exact ⟨by simp [get_base_template, h], by simp [get_extension_templates, h],
    by simp [get_custom_extension_templates, h],
    by simp [get_server_groups_to_target, h],
    by simp [get_dynamic_cluster_server_groups, h]⟩

theorem unset_context_getters_witness :
    get_base_template (initial_state
      { baseTemplate := some "t.jar", extensionTemplates := none,
        customExtensionTemplates := none, serverGroupsToTarget := none,
        dynamicClusterServerGroupsToTarget := none, rcuSchemas := none }) =
      .error (.claError "WLSDPLY-12302") ∧
    get_extension_templates (initial_state
      { baseTemplate := some "t.jar", extensionTemplates := none,
        customExtensionTemplates := none, serverGroupsToTarget := none,
        dynamicClusterServerGroupsToTarget := none, rcuSchemas := none }) =
      .error (.claError "WLSDPLY-12302") ∧
    get_custom_extension_templates (initial_state
      { baseTemplate := some "t.jar", extensionTemplates := none,
        customExtensionTemplates := none, serverGroupsToTarget := none,
        dynamicClusterServerGroupsToTarget := none, rcuSchemas := none }) =
      .error (.claError "WLSDPLY-12302") ∧
    get_server_groups_to_target (initial_state
      { baseTemplate := some "t.jar", extensionTemplates := none,
        customExtensionTemplates := none, serverGroupsToTarget := none,
        dynamicClusterServerGroupsToTarget := none, rcuSchemas := none }) =
      .error (.claError "WLSDPLY-12302") ∧
    get_dynamic_cluster_server_groups (initial_state
      { baseTemplate := some "t.jar", extensionTemplates := none,
        customExtensionTemplates := none, serverGroupsToTarget := none,
        dynamicClusterServerGroupsToTarget := none, rcuSchemas := none }) =
      .error (.claError "WLSDPLY-12302") :=
  unset_context_getters (initial_state
    { baseTemplate := some "t.jar", extensionTemplates := none,
      customExtensionTemplates := none, serverGroupsToTarget := none,
      dynamicClusterServerGroupsToTarget := none, rcuSchemas := none }) rfl rfl

/-- C8: a typedef whose selected definition record lacks `baseTemplate`
loads and constructs successfully — `__get_version_typedef` checks only the
top-level `versions` and `definitions` keys and the version match, never
the record's fields — and the absence is detected only at the first path
resolution: supplying a model context through `set_model_context`, or
calling a path-returning getter once a context is stored, fails with
ConfigError WLSDPLY-12303. -/
theorem missing_base_template_detected_at_resolution (doc : TypedefDoc)
    (oracle : VersionOracle) (versions_dict : List (String × String))
    (definitions : List (String × DefRecord)) (name : String)
    (record : DefRecord) (ctx : String → String)
    (hv : doc.versions = some versions_dict)
    (hd : doc.definitions = some definitions)
    (hm : match_version_typedef versions_dict oracle = .ok name)
    (hl : definitions.lookup name = some record)
    (hbt : record.baseTemplate = none) :
    get_version_typedef doc oracle = .ok (name, record) ∧
    set_model_context (initial_state record) ctx =
      .error (.claError "WLSDPLY-12303") ∧
    get_base_template
      { domain_typedef := record, paths_resolved := false,
        model_context := some ctx } = .error (.claError "WLSDPLY-12303") := by
  refine ⟨?_, ?_, ?_⟩
  · simp [get_version_typedef, hv, hd, hm, hl]
  · simp [set_model_context, initial_state, resolve_paths, hbt]
  · simp [get_base_template, resolve_paths, hbt]

theorem missing_base_template_witness :
    get_version_typedef
      ⟨some [("12.2.1.3", "base")],
       some [("base",
         { baseTemplate := none, extensionTemplates := none,
           customExtensionTemplates := none, serverGroupsToTarget := none,
           dynamicClusterServerGroupsToTarget := none, rcuSchemas := none })]⟩
      ⟨"12.2.1.3", []⟩ =
      .ok ("base",
        { baseTemplate := none, extensionTemplates := none,
          customExtensionTemplates := none, serverGroupsToTarget := none,
          dynamicClusterServerGroupsToTarget := none, rcuSchemas := none }) ∧
    set_model_context (initial_state
      { baseTemplate := none, extensionTemplates := none,
        customExtensionTemplates := none, serverGroupsToTarget := none,
        dynamicClusterServerGroupsToTarget := none, rcuSchemas := none })
      (fun x => x) = .error (.claError "WLSDPLY-12303") ∧
    get_base_template
      { domain_typedef :=
          { baseTemplate := none, extensionTemplates := none,
            customExtensionTemplates := none, serverGroupsToTarget := none,
            dynamicClusterServerGroupsToTarget := none, rcuSchemas := none },
        paths_resolved := false, model_context := some (fun x => x) } =
      .error (.claError "WLSDPLY-12303") :=
  missing_base_template_detected_at_resolution
    ⟨some [("12.2.1.3", "base")],
     some [("base",
       { baseTemplate := none, extensionTemplates := none,
         customExtensionTemplates := none, serverGroupsToTarget := none,
         dynamicClusterServerGroupsToTarget := none, rcuSchemas := none })]⟩
    ⟨"12.2.1.3", []⟩ [("12.2.1.3", "base")]
    [("base",
      { baseTemplate := none, extensionTemplates := none,
        customExtensionTemplates := none, serverGroupsToTarget := none,
        dynamicClusterServerGroupsToTarget := none, rcuSchemas := none })]
    "base"
    { baseTemplate := none, extensionTemplates := none,
      customExtensionTemplates := none, serverGroupsToTarget := none,
      dynamicClusterServerGroupsToTarget := none, rcuSchemas := none }
    (fun x => x) rfl rfl rfl (by decide) rfl

/-- C9: legacy filter translation.  When every key of the `system-elements`
dictionary appears in the fixed `__key_mapping_table`, translation succeeds
and rebuilds the dictionary with each key replaced by its mapped canonical
folder path and each pattern list carried over unchanged; when any key is
absent from the table, translation fails with the WLSDPLY-12316 error built
as a discover exception for the `discoverDomain` program and as a create
exception for any other program. -/
theorem translate_system_elements_spec (program_name : String)
    (system_elements : List (String × List String)) :
    ((∀ kv ∈ system_elements, (key_mapping_table.lookup kv.1).isSome) →
      translate_system_elements program_name system_elements =
        .ok (system_elements.map
          (fun kv => ((key_mapping_table.lookup kv.1).getD kv.1, kv.2)))) ∧
    ((∃ kv ∈ system_elements, key_mapping_table.lookup kv.1 = none) →
      translate_system_elements program_name system_elements =
        .error (if program_name = DISCOVER_DOMAIN then
                  .discoverError "WLSDPLY-12316"
                else .createError "WLSDPLY-12316")) := by
  constructor
  · intro hall
    induction system_elements with
    | nil => rfl
    | cons kv rest ih =>
      obtain ⟨key, value⟩ := kv
      obtain ⟨new_key, hnk⟩ := Option.isSome_iff_exists.mp (hall (key, value) (by simp))
      have htail := ih (fun kv hkv => hall kv (by simp [hkv]))
      simp [translate_system_elements, convert_system_elements_key_name, hnk, htail]
  · intro hbad
    induction system_elements with
    | nil => simp at hbad
    | cons kv rest ih =>
      obtain ⟨key, value⟩ := kv
      cases hk : key_mapping_table.lookup key with
      | none =>
        by_cases hp : program_name = DISCOVER_DOMAIN
        · simp [translate_system_elements, convert_system_elements_key_name, hk, hp]
        · simp [translate_system_elements, convert_system_elements_key_name, hk, hp]
      | some new_key =>
        have hrest : ∃ kv ∈ rest, key_mapping_table.lookup kv.1 = none := by
          obtain ⟨kv', hkv', hnone⟩ := hbad
          rcases List.mem_cons.mp hkv' with heq | hmem
          · subst heq
            simp only at hnone
            rw [hnone] at hk
            exact absurd hk (by simp)
          · exact ⟨kv', hmem, hnone⟩
        have htail := ih hrest
        simp [translate_system_elements, convert_system_elements_key_name, hk, htail]

theorem translate_system_elements_spec_witness :
    translate_system_elements "createDomain"
      [("datasources", ["MyDS"]), ("apps", ["a1", "a2"])] =
      .ok [("/JDBCSystemResource", ["MyDS"]), ("/Application", ["a1", "a2"])] ∧
    translate_system_elements "discoverDomain" [("bogus-key", ["x"])] =
      .error (.discoverError "WLSDPLY-12316") ∧
    translate_system_elements "createDomain" [("bogus-key", ["x"])] =
      .error (.createError "WLSDPLY-12316") :=
  ⟨(translate_system_elements_spec "createDomain"
      [("datasources", ["MyDS"]), ("apps", ["a1", "a2"])]).1 (by decide),
   (translate_system_elements_spec "discoverDomain" [("bogus-key", ["x"])]).2
     ⟨("bogus-key", ["x"]), by simp, by decide⟩,
   (translate_system_elements_spec "createDomain" [("bogus-key", ["x"])]).2
     ⟨("bogus-key", ["x"]), by simp, by decide⟩⟩

/-- C10: `set_model_context` is absorbing after the first call.  On any
state that already stores a model context, a subsequent call — with the
same context or a different one — returns the state unchanged: no error,
no replacement of the stored context, no re-resolution. -/
theorem set_model_context_absorbing (s : TypedefState) (c : String → String)
    (hc : s.model_context = some c) (ctx' : String → String) :
    set_model_context s ctx' = .ok s := by
  simp [set_model_context, hc]

theorem set_model_context_absorbing_witness :
    set_model_context
      { domain_typedef :=
          { baseTemplate := some "t.jar", extensionTemplates := some [],
            customExtensionTemplates := some [], serverGroupsToTarget := some [],
            dynamicClusterServerGroupsToTarget := some [], rcuSchemas := some [] },
        paths_resolved := true, model_context := some (fun x => x) }
      (fun x => x ++ "-other") =
    .ok { domain_typedef :=
            { baseTemplate := some "t.jar", extensionTemplates := some [],
              customExtensionTemplates := some [], serverGroupsToTarget := some [],
              dynamicClusterServerGroupsToTarget := some [], rcuSchemas := some [] },
          paths_resolved := true, model_context := some (fun x => x) } :=
  set_model_context_absorbing
    { domain_typedef :=
        { baseTemplate := some "t.jar", extensionTemplates := some [],
          customExtensionTemplates := some [], serverGroupsToTarget := some [],
          dynamicClusterServerGroupsToTarget := some [], rcuSchemas := some [] },
      paths_resolved := true, model_context := some (fun x => x) }
    (fun x => x) rfl (fun x => x ++ "-other")

end DomainTypedef
